import Mathlib

/-!
Shallow embedding of the token-gated ephemeral-delivery bot
(Mikenomike/Telegram-uploader, src/main.py) and proofs about it.

Times are modelled as integers (the source uses POSIX float seconds from
time.time() and SQL now(); only ordering and differences matter here).
External effects (Telegram API calls, the SQL store) are modelled as pure
state transformations plus oracles for the calls that can fail.
-/

namespace TelegramUploader

set_option maxHeartbeats 1000000

/-! ## Rate limiter (src/main.py lines 148-158)

The source keeps a module-global dict `_rate_map : user_id -> [timestamps]`.
We model the dict as an association list with unique keys; `setRate` is
Python dict assignment (update the key in place if present, else insert). -/

def lookupRate : List (Nat × List Int) → Nat → List Int
  | [], _ => []
  | p :: rest, uid => if p.1 = uid then p.2 else lookupRate rest uid

def setRate : List (Nat × List Int) → Nat → List Int → List (Nat × List Int)
  | [], uid, l => [(uid, l)]
  | p :: rest, uid, l => if p.1 = uid then (uid, l) :: rest else p :: setRate rest uid l

def hasKey : List (Nat × List Int) → Nat → Bool
  | [], _ => false
  | p :: rest, uid => (p.1 = uid) || hasKey rest uid

/-- Model of `is_rate_limited(user_id)`: evict timestamps older than
`now - RATE_LIMIT_PERIOD` (the source keeps `t >= window_start`), append
`now`, store the list back, and report limited when the resulting length
exceeds `RATE_LIMIT_COUNT`.  `count` and `period` are the env-configured
constants, `now` the value of time.time(). -/
def is_rate_limited (count : Nat) (period : Int) (now : Int) (user_id : Nat)
    (rate_map : List (Nat × List Int)) : Bool × List (Nat × List Int) :=
  let lst := lookupRate rate_map user_id
  let window_start := now - period
  let kept := lst.filter (fun t => decide (window_start ≤ t))
  let appended := kept ++ [now]
  (decide (appended.length > count), setRate rate_map user_id appended)

/-- Harness iterating `is_rate_limited` over a list of call times for one
identity, collecting the returned booleans and threading the map. -/
def processCalls (count : Nat) (period : Int) (user_id : Nat) :
    List Int → List (Nat × List Int) → List Bool × List (Nat × List Int)
  | [], m => ([], m)
  | t :: ts, m =>
    let r := is_rate_limited count period t user_id m
    let rest := processCalls count period user_id ts r.2
    (r.1 :: rest.1, rest.2)

/-! ## Persistent store model (src/main.py lines 69-123)

Rows of the four tables touched by the redemption flow.  SERIAL ids for
deliveries are modelled with an explicit next-id counter. -/

structure FileRecord where
  id : Nat
  storage_chat_id : Int
  storage_message_id : Nat
  file_unique_id : String
  file_type : String
  file_size : Nat
  token : String
  required_channels : List Int
  active : Bool
  views : Nat
deriving DecidableEq, Repr

structure UserRow where
  user_id : Nat
  username : Option String
  first_name : Option String
  last_name : Option String
  last_seen : Int
deriving DecidableEq, Repr

structure DeliveryRow where
  id : Nat
  file_id : Nat
  user_id : Nat
  sent_message_id : Option Nat
  deleted_at : Option Int
deriving DecidableEq, Repr

structure DBState where
  files : List FileRecord
  users : List UserRow
  deliveries : List DeliveryRow
  settings : List (String × String)
  next_delivery_id : Nat
deriving DecidableEq, Repr

/-- `SELECT * FROM files WHERE token=$1 AND active=true` (get_file_by_token,
lines 79-83).  `token` is unique so the first match is the only match. -/
def get_file_by_token (files : List FileRecord) (token : String) :
    Option FileRecord :=
  files.find? (fun f => decide (f.token = token) && f.active)

/-- `UPDATE files SET views = views + 1 WHERE id=$1` (increment_file_views,
lines 85-88). -/
def increment_file_views (file_id : Nat) (files : List FileRecord) :
    List FileRecord :=
  files.map (fun f => if f.id = file_id then { f with views := f.views + 1 } else f)

/-- `INSERT ... ON CONFLICT (user_id) DO UPDATE SET last_seen = now(),
username = EXCLUDED.username` (upsert_user, lines 90-97).  On conflict only
`last_seen` and `username` are updated, not the names. -/
def upsert_user (now : Int) (uid : Nat) (username first_name last_name : Option String)
    (users : List UserRow) : List UserRow :=
  if users.any (fun u => u.user_id = uid) then
    users.map (fun u =>
      if u.user_id = uid then { u with last_seen := now, username := username } else u)
  else
    users ++ [⟨uid, username, first_name, last_name, now⟩]

/-- `INSERT INTO deliveries (file_id, user_id, sent_message_id) ... RETURNING id`
(record_delivery, lines 99-105): inserts an open delivery (deleted_at null)
and returns the fresh serial id. -/
def record_delivery (file_id user_id : Nat) (sent_message_id : Option Nat)
    (db : DBState) : Nat × DBState :=
  let did := db.next_delivery_id
  (did, { db with
            deliveries := db.deliveries ++ [⟨did, file_id, user_id, sent_message_id, none⟩],
            next_delivery_id := did + 1 })

/-- `UPDATE deliveries SET deleted_at = now() WHERE id=$1`
(mark_delivery_deleted, lines 107-110).  Note: no guard on deleted_at being
null — the update writes unconditionally. -/
def mark_delivery_deleted (now : Int) (delivery_id : Nat) (db : DBState) : DBState :=
  { db with
      deliveries := db.deliveries.map (fun d =>
        if d.id = delivery_id then { d with deleted_at := some now } else d) }

/-- `SELECT value FROM settings WHERE key=$1` with a default
(get_setting, lines 112-118). -/
def get_setting (settings : List (String × String)) (key : String)
    (default : Option String) : Option String :=
  match settings.find? (fun p => decide (p.1 = key)) with
  | some p => some p.2
  | none => default

/-- The `int(timeout_setting)` try/except at lines 293-296: fall back to
DEFAULT_DELETE_TIMEOUT when the setting is absent or non-numeric. -/
def parse_timeout (default_timeout : Nat) (s : Option String) : Int :=
  match s with
  | some str =>
    match str.toInt? with
    | some n => n
    | none => default_timeout
  | none => default_timeout

/-! ## Membership gate (the loop at src/main.py lines 262-279) -/

inductive GateResult where
  | mustJoin (ch : Int)
  | checkFailed (ch : Int)
deriving DecidableEq, Repr

/-- The membership loop: for each required channel in order, query
`get_chat_member` (`memberStatus ch`; an `Except.error` is a raised transport
error caught at line 276).  Status left or kicked answers the join prompt and
returns immediately; an error answers the transient-failure notice and
returns immediately.  `none` means every channel passed.  (The inner
`get_chat` try at lines 268-274 only chooses between two join-prompt message
bodies; it does not affect control flow or state, so it is not modelled.) -/
def checkChannels (memberStatus : Int → Except Unit String) :
    List Int → Option GateResult
  | [] => none
  | ch :: rest =>
    match memberStatus ch with
    | .ok s => if s = "left" || s = "kicked" then some (.mustJoin ch)
               else checkChannels memberStatus rest
    | .error _ => some (.checkFailed ch)

/-! ## The redemption flow (handle_start_message, src/main.py lines 246-320) -/

inductive StartOutcome where
  | rateLimited
  | invalidLink
  | mustJoin (ch : Int)
  | membershipCheckFailed (ch : Int)
  | forwardFailed
  | warningRaised
  | delivered (delivery_id : Nat)
deriving DecidableEq, Repr

/-- One scheduled do_delete task (the asyncio.create_task at line 320). -/
structure ScheduledDelete where
  delivery_id : Nat
  chat_id : Nat
  forwarded_msg_id : Option Nat
  warning_msg_id : Nat
  delay : Int
deriving DecidableEq, Repr

/-- In-process mutable state: the rate-limiter map and the set of spawned
deferred-deletion tasks. -/
structure ProcState where
  rate_map : List (Nat × List Int)
  scheduled : List ScheduledDelete
deriving DecidableEq, Repr

/-- Oracles for the fallible platform calls made by one redemption:
`get_chat_member` per channel, `forward_message`, and the warning
`send_message` (which the source does NOT wrap in try/except). -/
structure Oracles where
  member_status : Int → Except Unit String
  forward_result : Except Unit Nat
  warning_result : Except Unit Nat

structure HandleResult where
  outcome : StartOutcome
  db : DBState
  ps : ProcState
  forward_attempted : Bool
deriving Repr

/-- Model of `handle_start_message(message, token)`:
1. rate limit (answer throttle notice and return if limited);
2. upsert_user (always, before the token lookup);
3. get_file_by_token — miss answers the invalid-link message and returns;
4. membership loop — first failing channel answers and returns;
5. forward_message — an exception answers the failure notice and returns;
6. get_setting + int() for the timeout, then send the warning (unguarded:
   an exception here propagates and aborts the handler);
7. record_delivery, increment_file_views, spawn do_delete.
`forward_attempted` records whether control reached the forward call. -/
def handle_start_message (count : Nat) (period : Int) (default_timeout : Nat)
    (o : Oracles) (now : Int) (uid : Nat)
    (username first_name last_name : Option String)
    (token : String) (db : DBState) (ps : ProcState) : HandleResult :=
  let rl := is_rate_limited count period now uid ps.rate_map
  let ps1 : ProcState := { ps with rate_map := rl.2 }
  if rl.1 then
    ⟨.rateLimited, db, ps1, false⟩
  else
    let db1 : DBState :=
      { db with users := upsert_user now uid username first_name last_name db.users }
    match get_file_by_token db1.files token with
    | none => ⟨.invalidLink, db1, ps1, false⟩
    | some row =>
      match checkChannels o.member_status row.required_channels with
      | some (.mustJoin ch) => ⟨.mustJoin ch, db1, ps1, false⟩
      | some (.checkFailed ch) => ⟨.membershipCheckFailed ch, db1, ps1, false⟩
      | none =>
        match o.forward_result with
        | .error _ => ⟨.forwardFailed, db1, ps1, true⟩
        | .ok fwd_id =>
          let timeout := parse_timeout default_timeout
            (get_setting db1.settings "delete_timeout_seconds"
              (some (toString default_timeout)))
          match o.warning_result with
          | .error _ => ⟨.warningRaised, db1, ps1, true⟩
          | .ok warn_id =>
            let rd := record_delivery row.id uid (some fwd_id) db1
            let db2 : DBState := { rd.2 with files := increment_file_views row.id rd.2.files }
            let ps2 : ProcState :=
              { ps1 with scheduled := ps1.scheduled ++ [⟨rd.1, uid, some fwd_id, warn_id, timeout⟩] }
            ⟨.delivered rd.1, db2, ps2, true⟩

/-! ## Token generation (make_token, src/main.py lines 138-143)

make_token computes hmac.new(TOKEN_SECRET, file_unique_id + os.urandom(12),
hashlib.sha256).hexdigest()[:36].  We embed HMAC-SHA256 over byte lists
(bytes as Nat < 256, 32-bit words as Nat with explicit mod 2^32); the
12-byte random nonce is a parameter since os.urandom is nondeterministic. -/

def w32 (n : Nat) : Nat := n % 4294967296

def rotr (n x : Nat) : Nat := w32 ((x >>> n) ||| (x <<< (32 - n)))

def bnot32 (x : Nat) : Nat := Nat.xor x 4294967295

def ch32 (e f g : Nat) : Nat := Nat.xor (Nat.land e f) (Nat.land (bnot32 e) g)

def maj32 (a b c : Nat) : Nat :=
  Nat.xor (Nat.xor (Nat.land a b) (Nat.land a c)) (Nat.land b c)

def bsig0 (x : Nat) : Nat := Nat.xor (Nat.xor (rotr 2 x) (rotr 13 x)) (rotr 22 x)

def bsig1 (x : Nat) : Nat := Nat.xor (Nat.xor (rotr 6 x) (rotr 11 x)) (rotr 25 x)

def ssig0 (x : Nat) : Nat := Nat.xor (Nat.xor (rotr 7 x) (rotr 18 x)) (x >>> 3)

def ssig1 (x : Nat) : Nat := Nat.xor (Nat.xor (rotr 17 x) (rotr 19 x)) (x >>> 10)

/-- The 64 SHA-256 round constants (FIPS 180-4, written in decimal). -/
def K256 : List Nat :=
  [1116352408, 1899447441, 3049323471, 3921009573,
   961987163, 1508970993, 2453635748, 2870763221,
   3624381080, 310598401, 607225278, 1426881987,
   1925078388, 2162078206, 2614888103, 3248222580,
   3835390401, 4022224774, 264347078, 604807628,
   770255983, 1249150122, 1555081692, 1996064986,
   2554220882, 2821834349, 2952996808, 3210313671,
   3336571891, 3584528711, 113926993, 338241895,
   666307205, 773529912, 1294757372, 1396182291,
   1695183700, 1986661051, 2177026350, 2456956037,
   2730485921, 2820302411, 3259730800, 3345764771,
   3516065817, 3600352804, 4094571909, 275423344,
   430227734, 506948616, 659060556, 883997877,
   958139571, 1322822218, 1537002063, 1747873779,
   1955562222, 2024104815, 2227730452, 2361852424,
   2428436474, 2756734187, 3204031479, 3329325298]

/-- SHA-256 working state: eight 32-bit words. -/
structure Hash8 where
  a : Nat
  b : Nat
  c : Nat
  d : Nat
  e : Nat
  f : Nat
  g : Nat
  h : Nat
deriving DecidableEq, Repr

def sha256Init : Hash8 :=
  ⟨1779033703, 3144134277, 1013904242, 2773480762,
   1359893119, 2600822924, 528734635, 1541459225⟩

/-- Big-endian 4-byte groups to 32-bit words. -/
def bytesToWords : List Nat → List Nat
  | b0 :: b1 :: b2 :: b3 :: rest =>
    (b0 * 16777216 + b1 * 65536 + b2 * 256 + b3) :: bytesToWords rest
  | _ => []

/-- A 32-bit word to 4 big-endian bytes. -/
def wordBytes (w : Nat) : List Nat :=
  [w / 16777216 % 256, w / 65536 % 256, w / 256 % 256, w % 256]

/-- The message-schedule extension step: append
σ1(w[t-2]) + w[t-7] + σ0(w[t-15]) + w[t-16]. -/
def schedStep (ws : List Nat) : List Nat :=
  ws ++ [w32 (ssig1 (ws.getD (ws.length - 2) 0) + ws.getD (ws.length - 7) 0 +
              ssig0 (ws.getD (ws.length - 15) 0) + ws.getD (ws.length - 16) 0)]

/-- Extend the 16 chunk words to the 64 schedule words. -/
def schedule (w16 : List Nat) : List Nat :=
  (List.range 48).foldl (fun ws _ => schedStep ws) w16

/-- One compression round with round constant k and schedule word w. -/
def sha256Round (st : Hash8) (kw : Nat × Nat) : Hash8 :=
  let t1 := w32 (st.h + bsig1 st.e + ch32 st.e st.f st.g + kw.1 + kw.2)
  let t2 := w32 (bsig0 st.a + maj32 st.a st.b st.c)
  ⟨w32 (t1 + t2), st.a, st.b, st.c, w32 (st.d + t1), st.e, st.f, st.g⟩

/-- Compress one 64-byte chunk into the running state. -/
def compressChunk (st : Hash8) (chunk : List Nat) : Hash8 :=
  let ws := schedule (bytesToWords chunk)
  let f := (K256.zip ws).foldl sha256Round st
  ⟨w32 (st.a + f.a), w32 (st.b + f.b), w32 (st.c + f.c), w32 (st.d + f.d),
   w32 (st.e + f.e), w32 (st.f + f.f), w32 (st.g + f.g), w32 (st.h + f.h)⟩

/-- 8-byte big-endian encoding of the bit length. -/
def len64 (n : Nat) : List Nat :=
  [n / 72057594037927936 % 256, n / 281474976710656 % 256,
   n / 1099511627776 % 256, n / 4294967296 % 256,
   n / 16777216 % 256, n / 65536 % 256, n / 256 % 256, n % 256]

/-- SHA-256 padding: 0x80, zeros to 56 mod 64, then the 64-bit bit length. -/
def sha256Pad (msg : List Nat) : List Nat :=
  let l := msg.length
  let zeros := (64 - (l + 9) % 64) % 64
  msg ++ [128] ++ List.replicate zeros 0 ++ len64 (l * 8)

/-- Split into 64-byte chunks. -/
def chunks64 (l : List Nat) : List (List Nat) :=
  if l = [] then []
  else l.take 64 :: chunks64 (l.drop 64)
  termination_by l.length
  decreasing_by
    simp [List.length_drop]
    rename_i hne
    have : 0 < l.length := List.length_pos.mpr hne
    omega

/-- Serialize the final state to the 32-byte digest. -/
def stateBytes (st : Hash8) : List Nat :=
  wordBytes st.a ++ wordBytes st.b ++ wordBytes st.c ++ wordBytes st.d ++
  wordBytes st.e ++ wordBytes st.f ++ wordBytes st.g ++ wordBytes st.h

def sha256 (msg : List Nat) : List Nat :=
  stateBytes ((chunks64 (sha256Pad msg)).foldl compressChunk sha256Init)

/-- HMAC-SHA256 (block size 64): hash the key when longer than a block,
zero-pad to the block, then H((k0 xor opad) ++ H((k0 xor ipad) ++ msg)). -/
def hmac_sha256 (key msg : List Nat) : List Nat :=
  let kh := if 64 < key.length then sha256 key else key
  let k0 := kh ++ List.replicate (64 - kh.length) 0
  sha256 ((k0.map (Nat.xor 92)) ++ sha256 ((k0.map (Nat.xor 54)) ++ msg))

def hexChar (n : Nat) : Char :=
  if n < 10 then Char.ofNat (48 + n) else Char.ofNat (87 + n)

/-- Lowercase hex encoding, two characters per byte (hexdigest()). -/
def hexdigestChars : List Nat → List Char
  | [] => []
  | b :: bs => hexChar (b / 16) :: hexChar (b % 16) :: hexdigestChars bs

/-- Model of make_token: the HMAC-SHA256 of file_unique_id ++ nonce keyed by
TOKEN_SECRET, hex-encoded, truncated to the first 36 characters.  The
12-byte nonce drawn from os.urandom(12) is passed in. -/
def make_token (secret file_unique_id nonce : List Nat) : String :=
  String.mk ((hexdigestChars (hmac_sha256 secret (file_unique_id ++ nonce))).take 36)

/-! ## The deferred deletion task (do_delete, src/main.py lines 304-318) -/

inductive DeleteStep where
  | delMedia
  | delWarning
  | closeLedger
deriving DecidableEq, Repr

/-- Outcomes of the three fallible operations inside do_delete: the two
`bot.delete_message` calls and the `mark_delivery_deleted` DB update.  Each
is wrapped in its own try/except in the source, so a failure is logged and
swallowed. -/
structure DeleteOracles where
  del_media_ok : Bool
  del_warning_ok : Bool
  close_ok : Bool
deriving DecidableEq, Repr

/-- Model of do_delete after the sleep: attempt to delete the forwarded
message (only when a message id was captured; failure swallowed), attempt to
delete the warning (failure swallowed), attempt mark_delivery_deleted
(failure swallowed; on success the row update applies).  Returns the
resulting DB and the trace of attempted steps with their outcomes. -/
def do_delete (o : DeleteOracles) (now : Int) (delivery_id : Nat)
    (forwarded_msg_id : Option Nat) (db : DBState) :
    DBState × List (DeleteStep × Bool) :=
  let s1 : List (DeleteStep × Bool) :=
    match forwarded_msg_id with
    | some _ => [(.delMedia, o.del_media_ok)]
    | none => []
  let s2 := s1 ++ [(.delWarning, o.del_warning_ok)]
  let db2 := if o.close_ok then mark_delivery_deleted now delivery_id db else db
  (db2, s2 ++ [(.closeLedger, o.close_ok)])

/-! ## Concrete fixtures used by witnesses and counterexamples -/

/-- A DB with one open delivery (id 1), used to exercise the ledger close. -/
def dbC1 : DBState :=
  { files := [], users := [], deliveries := [⟨1, 1, 7, some 5, none⟩],
    settings := [], next_delivery_id := 2 }

/-- An active file whose token is "tok" and which requires channel 111. -/
def fileA : FileRecord :=
  ⟨1, -1001, 5, "fu", "video", 10, "tok", [111], true, 0⟩

def dbA : DBState := ⟨[fileA], [], [], [], 1⟩

def psA : ProcState := ⟨[], []⟩

/-- Oracle: the requester has left every channel, platform calls succeed. -/
def oDenied : Oracles := ⟨fun _ => .ok "left", .ok 77, .ok 88⟩

/-- Oracle: membership fine, but forward_message raises. -/
def oFwdFail : Oracles := ⟨fun _ => .ok "member", .error (), .ok 88⟩

/-- Oracle: membership and forward fine, but the warning send_message raises. -/
def oWarnFail : Oracles := ⟨fun _ => .ok "member", .ok 77, .error ()⟩

/-! ## Helper lemmas -/

theorem lookupRate_setRate_self (m : List (Nat × List Int)) (uid : Nat) (l : List Int) :
    lookupRate (setRate m uid l) uid = l := by
  induction m with
  | nil => simp [setRate, lookupRate]
  | cons p rest ih =>
    by_cases h : p.1 = uid
    · simp [setRate, h, lookupRate]
    · simp [setRate, h, lookupRate, ih]

theorem lookupRate_setRate_other (m : List (Nat × List Int)) (uid uid2 : Nat)
    (l : List Int) (h : uid ≠ uid2) :
    lookupRate (setRate m uid2 l) uid = lookupRate m uid := by
  have hne2 : ¬ uid2 = uid := fun hh => h hh.symm
  induction m with
  | nil => simp [setRate, lookupRate, hne2]
  | cons p rest ih =>
    by_cases hp : p.1 = uid2
    · have hne : ¬ p.1 = uid := by rw [hp]; exact hne2
      simp [setRate, hp, lookupRate, hne, hne2]
    · simp [setRate, hp, lookupRate, ih]

theorem hasKey_setRate_other (m : List (Nat × List Int)) (uid uid2 : Nat)
    (l : List Int) (h : uid ≠ uid2) :
    hasKey (setRate m uid2 l) uid = hasKey m uid := by
  have hne2 : ¬ uid2 = uid := fun hh => h hh.symm
  induction m with
  | nil => simp [setRate, hasKey, hne2]
  | cons p rest ih =>
    by_cases hp : p.1 = uid2
    · have hne : ¬ p.1 = uid := by rw [hp]; exact hne2
      simp [setRate, hp, hasKey, hne, hne2]
    · simp [setRate, hp, hasKey, ih]

theorem hexdigestChars_length (bs : List Nat) :
    (hexdigestChars bs).length = 2 * bs.length := by
  induction bs with
  | nil => simp [hexdigestChars]
  | cons b bs ih => simp [hexdigestChars, ih]; omega

theorem stateBytes_length (st : Hash8) : (stateBytes st).length = 32 := by
  simp [stateBytes, wordBytes]

theorem sha256_length (msg : List Nat) : (sha256 msg).length = 32 := by
  simp [sha256, stateBytes_length]

/-- Characterization of iterated is_rate_limited calls for one identity:
when no timestamp ever becomes stale during the call sequence (every entry is
within period of every call time), each call simply appends, so the i-th call
reports limited exactly when the accumulated size passes count. -/
theorem processCalls_spec (count : Nat) (period : Int) (uid : Nat) :
    ∀ (ts : List Int) (m : List (Nat × List Int)),
      (∀ a ∈ lookupRate m uid, ∀ b ∈ ts, b - period ≤ a) →
      (∀ a ∈ ts, ∀ b ∈ ts, b - period ≤ a) →
      (processCalls count period uid ts m).1 =
        (List.range ts.length).map
          (fun i => decide ((lookupRate m uid).length + i + 1 > count)) := by
  intro ts
  induction ts with
  | nil => intro m _ _; simp [processCalls]
  | cons t ts ih =>
    intro m h1 h2
    have hfilter : (lookupRate m uid).filter (fun a => decide (t - period ≤ a)) =
        lookupRate m uid := by
      rw [List.filter_eq_self]
      intro a ha
      simpa using h1 a ha t (by simp)
    have hset : lookupRate (setRate m uid
        ((lookupRate m uid).filter (fun a => decide (t - period ≤ a)) ++ [t])) uid =
        lookupRate m uid ++ [t] := by
      rw [hfilter, lookupRate_setRate_self]
    have h1' : ∀ a ∈ lookupRate (setRate m uid
        ((lookupRate m uid).filter (fun a => decide (t - period ≤ a)) ++ [t])) uid,
        ∀ b ∈ ts, b - period ≤ a := by
      rw [hset]
      intro a ha b hb
      rcases List.mem_append.mp ha with ha | ha
      · exact h1 a ha b (List.mem_cons_of_mem _ hb)
      · have : a = t := by simpa using ha
        subst this
        exact h2 a (List.mem_cons_self _ _) b (List.mem_cons_of_mem _ hb)
    have h2' : ∀ a ∈ ts, ∀ b ∈ ts, b - period ≤ a := fun a ha b hb =>
      h2 a (List.mem_cons_of_mem _ ha) b (List.mem_cons_of_mem _ hb)
    simp only [processCalls, is_rate_limited]
    rw [ih _ h1' h2']
    rw [hset, hfilter]
    simp only [List.length_cons]
    rw [List.range_succ_eq_map, List.map_cons, List.map_map]
    congr 1
    · rw [decide_eq_decide, List.length_append]
      simp
    · apply List.map_congr_left
      intro i _
      simp only [Function.comp]
      rw [decide_eq_decide, List.length_append]
      simp
      omega

/-- Map of the index range to the over-threshold test: all-false up to the
threshold. -/
theorem range_map_threshold (count : Nat) :
    (List.range count).map (fun i => decide (i + 1 > count)) =
      List.replicate count false := by
  rw [List.eq_replicate_iff]
  refine ⟨by simp, ?_⟩
  intro b hb
  simp only [List.mem_map, List.mem_range] at hb
  obtain ⟨i, hi, hb⟩ := hb
  subst hb
  simp
  omega

/-! ## Claim theorems -/

/-- Claim C1 (counterexample): DeliveryLedger.close is NOT idempotent in the
sense the claim states.  Closing delivery 1 at time 1 and again at time 2
leaves deleted_at = some 2, the time of the SECOND close, because
mark_delivery_deleted is an unconditional UPDATE with no null-guard on
deleted_at. -/
theorem mark_delivery_deleted_overwrites :
    (mark_delivery_deleted 2 1 (mark_delivery_deleted 1 1 dbC1)).deliveries.map
      (fun d => d.deleted_at) = [some 2] ∧ (some (2:Int) ≠ some (1:Int)) := by
  decide

/-- Claim C1 (amended): mark_delivery_deleted is a blind overwrite with
last-write-wins semantics: closing twice leaves deleted_at equal to the time
of the LAST close (in particular it stays non-null, so a double close is not
an error, but the first close's timestamp is not preserved). -/
theorem mark_delivery_deleted_last_write_wins (t1 t2 : Int) (did : Nat) (db : DBState) :
    mark_delivery_deleted t2 did (mark_delivery_deleted t1 did db) =
      mark_delivery_deleted t2 did db := by
  simp only [mark_delivery_deleted, List.map_map]
  congr 1
  apply List.map_congr_left
  intro d _
  by_cases h : d.id = did <;> simp [h, Function.comp]

/-- Claim C2: when the membership loop fails on some required channel of the
looked-up file — the first channel whose get_chat_member reports left or
kicked, or whose query raises a transport error — the flow stops before the
forward: the forward call is never reached, no delivery row is created, and
the files table (hence views) is untouched. -/
theorem membership_failure_blocks_delivery (count : Nat) (period : Int) (dt : Nat)
    (o : Oracles) (now : Int) (uid : Nat) (un fn ln : Option String)
    (token : String) (db : DBState) (ps : ProcState)
    (row : FileRecord) (g : GateResult)
    (hrow : get_file_by_token db.files token = some row)
    (hgate : checkChannels o.member_status row.required_channels = some g) :
    (handle_start_message count period dt o now uid un fn ln token db ps).forward_attempted
        = false ∧
    (handle_start_message count period dt o now uid un fn ln token db ps).db.deliveries
        = db.deliveries ∧
    (handle_start_message count period dt o now uid un fn ln token db ps).db.files
        = db.files := by
  unfold handle_start_message
  by_cases hrl : (is_rate_limited count period now uid ps.rate_map).1 = true
  · simp [hrl]
  · simp only [Bool.not_eq_true] at hrl
    cases g <;> simp [hrl, hrow, hgate]

theorem membership_failure_blocks_delivery_witness :
    (handle_start_message 6 60 20 oDenied 0 42 none none none "tok" dbA psA).forward_attempted
        = false ∧
    (handle_start_message 6 60 20 oDenied 0 42 none none none "tok" dbA psA).db.deliveries
        = dbA.deliveries ∧
    (handle_start_message 6 60 20 oDenied 0 42 none none none "tok" dbA psA).db.files
        = dbA.files :=
  membership_failure_blocks_delivery 6 60 20 oDenied 0 42 none none none "tok" dbA psA
    fileA (.mustJoin 111) (by decide) (by decide)

/-- Claim C3: starting from a state where the identity has no recorded
timestamps, count + 1 calls all falling within one period-long window return
not-limited for the first count calls and limited for the (count+1)-th. -/
theorem rate_limiter_window_threshold (count : Nat) (period : Int) (uid : Nat)
    (times : List Int) (m : List (Nat × List Int))
    (hfresh : lookupRate m uid = [])
    (hlen : times.length = count + 1)
    (hspan : ∀ a ∈ times, ∀ b ∈ times, b - period ≤ a) :
    (processCalls count period uid times m).1 =
      List.replicate count false ++ [true] := by
  rw [processCalls_spec count period uid times m (by simp [hfresh]) hspan, hfresh, hlen]
  simp only [List.length_nil, Nat.zero_add]
  rw [List.range_succ, List.map_append]
  congr 1
  · exact range_map_threshold count
  · simp

theorem rate_limiter_window_threshold_witness :
    (processCalls 2 60 1 [10, 20, 30] []).1 = List.replicate 2 false ++ [true] :=
  rate_limiter_window_threshold 2 60 1 [10, 20, 30] [] rfl rfl (by decide)

/-- Claim C4: a redemption that passes the throttle but whose token lookup
misses (token absent, or present with active = false — get_file_by_token
filters on active) answers invalid-link and stops: no delivery row is
created and the files table (hence views) is untouched. -/
theorem invalid_token_no_delivery (count : Nat) (period : Int) (dt : Nat)
    (o : Oracles) (now : Int) (uid : Nat) (un fn ln : Option String)
    (token : String) (db : DBState) (ps : ProcState)
    (hmiss : get_file_by_token db.files token = none)
    (hrl : (is_rate_limited count period now uid ps.rate_map).1 = false) :
    (handle_start_message count period dt o now uid un fn ln token db ps).outcome
        = .invalidLink ∧
    (handle_start_message count period dt o now uid un fn ln token db ps).db.deliveries
        = db.deliveries ∧
    (handle_start_message count period dt o now uid un fn ln token db ps).db.files
        = db.files := by
  unfold handle_start_message
  simp [hrl, hmiss]

theorem invalid_token_no_delivery_witness :
    (handle_start_message 6 60 20 oDenied 0 42 none none none "bad" dbA psA).outcome
        = .invalidLink ∧
    (handle_start_message 6 60 20 oDenied 0 42 none none none "bad" dbA psA).db.deliveries
        = dbA.deliveries ∧
    (handle_start_message 6 60 20 oDenied 0 42 none none none "bad" dbA psA).db.files
        = dbA.files :=
  invalid_token_no_delivery 6 60 20 oDenied 0 42 none none none "bad" dbA psA
    (by decide) (by decide)

/-- Claim C5: a redemption that passes throttle, token lookup and membership
but whose forward_message raises answers the failure notice and stops: no
delivery row, no views increment, nothing scheduled. -/
theorem forward_failure_no_delivery (count : Nat) (period : Int) (dt : Nat)
    (o : Oracles) (now : Int) (uid : Nat) (un fn ln : Option String)
    (token : String) (db : DBState) (ps : ProcState) (row : FileRecord)
    (hrl : (is_rate_limited count period now uid ps.rate_map).1 = false)
    (hrow : get_file_by_token db.files token = some row)
    (hgate : checkChannels o.member_status row.required_channels = none)
    (hfwd : o.forward_result = .error ()) :
    (handle_start_message count period dt o now uid un fn ln token db ps).outcome
        = .forwardFailed ∧
    (handle_start_message count period dt o now uid un fn ln token db ps).db.deliveries
        = db.deliveries ∧
    (handle_start_message count period dt o now uid un fn ln token db ps).db.files
        = db.files ∧
    (handle_start_message count period dt o now uid un fn ln token db ps).ps.scheduled
        = ps.scheduled := by
  unfold handle_start_message
  simp [hrl, hrow, hgate, hfwd]

theorem forward_failure_no_delivery_witness :
    (handle_start_message 6 60 20 oFwdFail 0 42 none none none "tok" dbA psA).outcome
        = .forwardFailed ∧
    (handle_start_message 6 60 20 oFwdFail 0 42 none none none "tok" dbA psA).db.deliveries
        = dbA.deliveries ∧
    (handle_start_message 6 60 20 oFwdFail 0 42 none none none "tok" dbA psA).db.files
        = dbA.files ∧
    (handle_start_message 6 60 20 oFwdFail 0 42 none none none "tok" dbA psA).ps.scheduled
        = psA.scheduled :=
  forward_failure_no_delivery 6 60 20 oFwdFail 0 42 none none none "tok" dbA psA fileA
    (by decide) (by decide) (by decide) rfl

/-- Claim C6: in the deferred deletion task, the three sub-steps are
independent and best-effort: the warning-delete and ledger-close are always
attempted whatever the other outcomes, the media-delete is attempted whenever
a forwarded message id was captured, and the ledger close applies exactly
when its own DB update succeeds — failures of either delete never prevent
it. -/
theorem do_delete_steps_independent (o : DeleteOracles) (now : Int) (did : Nat)
    (fwd : Option Nat) (db : DBState) :
    ((DeleteStep.delWarning, o.del_warning_ok) ∈ (do_delete o now did fwd db).2) ∧
    ((DeleteStep.closeLedger, o.close_ok) ∈ (do_delete o now did fwd db).2) ∧
    (fwd.isSome = true →
      (DeleteStep.delMedia, o.del_media_ok) ∈ (do_delete o now did fwd db).2) ∧
    (o.close_ok = true →
      (do_delete o now did fwd db).1 = mark_delivery_deleted now did db) ∧
    (o.close_ok = false → (do_delete o now did fwd db).1 = db) := by
  cases fwd <;> refine ⟨by simp [do_delete], by simp [do_delete], ?_, ?_, ?_⟩ <;>
    intro h <;> simp_all [do_delete]

theorem do_delete_steps_independent_witness :
    ((DeleteStep.delWarning, false) ∈ (do_delete ⟨false, false, true⟩ 9 1 (some 5) dbC1).2) ∧
    ((DeleteStep.closeLedger, true) ∈ (do_delete ⟨false, false, true⟩ 9 1 (some 5) dbC1).2) ∧
    ((DeleteStep.delMedia, false) ∈ (do_delete ⟨false, false, true⟩ 9 1 (some 5) dbC1).2) ∧
    ((do_delete ⟨false, false, true⟩ 9 1 (some 5) dbC1).1 = mark_delivery_deleted 9 1 dbC1) :=
  ⟨(do_delete_steps_independent ⟨false, false, true⟩ 9 1 (some 5) dbC1).1,
   (do_delete_steps_independent ⟨false, false, true⟩ 9 1 (some 5) dbC1).2.1,
   (do_delete_steps_independent ⟨false, false, true⟩ 9 1 (some 5) dbC1).2.2.1 rfl,
   (do_delete_steps_independent ⟨false, false, true⟩ 9 1 (some 5) dbC1).2.2.2.1 rfl⟩

/-- Claim C7: make_token is the keyed MAC (HMAC-SHA256) of the media unique
id concatenated with the fresh 12-byte nonce, keyed by the service secret,
hex-encoded and truncated to the first 36 characters; for every input the
result has length exactly 36. -/
theorem make_token_shape (secret file_unique_id nonce : List Nat) :
    make_token secret file_unique_id nonce =
      String.mk ((hexdigestChars
        (hmac_sha256 secret (file_unique_id ++ nonce))).take 36) ∧
    (make_token secret file_unique_id nonce).length = 36 := by
  refine ⟨rfl, ?_⟩
  show ((hexdigestChars (hmac_sha256 secret (file_unique_id ++ nonce))).take 36).length = 36
  rw [List.length_take, hexdigestChars_length]
  have h32 : (hmac_sha256 secret (file_unique_id ++ nonce)).length = 32 := by
    simp [hmac_sha256, sha256_length]
  rw [h32]
  omega

/-- Claim C8 (counterexample): an invalid-token redemption is NOT free of
side effects: the user upsert runs before the token lookup, so the users
table gains a row, and the rate-limiter map records the call. -/
theorem invalid_token_mutates_state :
    (handle_start_message 6 60 20 oDenied 0 42 (some "u") none none "bad" dbA psA).outcome
        = .invalidLink ∧
    (handle_start_message 6 60 20 oDenied 0 42 (some "u") none none "bad" dbA psA).db.users
        ≠ dbA.users ∧
    (handle_start_message 6 60 20 oDenied 0 42 (some "u") none none "bad" dbA psA).ps.rate_map
        ≠ psA.rate_map := by
  decide

/-- Claim C8 (amended): an invalid-token redemption that passes the throttle
stops after the invalid-link message with no side effects BEYOND the
always-run user upsert and the rate-limiter bookkeeping: files, deliveries,
settings, the delivery-id counter and the scheduled-task list are unchanged;
users is exactly the upsert result and the rate map exactly the throttle
update. -/
theorem invalid_token_side_effects_bounded (count : Nat) (period : Int) (dt : Nat)
    (o : Oracles) (now : Int) (uid : Nat) (un fn ln : Option String)
    (token : String) (db : DBState) (ps : ProcState)
    (hmiss : get_file_by_token db.files token = none)
    (hrl : (is_rate_limited count period now uid ps.rate_map).1 = false) :
    (handle_start_message count period dt o now uid un fn ln token db ps).outcome
        = .invalidLink ∧
    (handle_start_message count period dt o now uid un fn ln token db ps).db.files
        = db.files ∧
    (handle_start_message count period dt o now uid un fn ln token db ps).db.deliveries
        = db.deliveries ∧
    (handle_start_message count period dt o now uid un fn ln token db ps).db.settings
        = db.settings ∧
    (handle_start_message count period dt o now uid un fn ln token db ps).db.next_delivery_id
        = db.next_delivery_id ∧
    (handle_start_message count period dt o now uid un fn ln token db ps).db.users
        = upsert_user now uid un fn ln db.users ∧
    (handle_start_message count period dt o now uid un fn ln token db ps).ps.scheduled
        = ps.scheduled ∧
    (handle_start_message count period dt o now uid un fn ln token db ps).ps.rate_map
        = (is_rate_limited count period now uid ps.rate_map).2 ∧
    (handle_start_message count period dt o now uid un fn ln token db ps).forward_attempted
        = false := by
  unfold handle_start_message
  simp [hrl, hmiss]

theorem invalid_token_side_effects_bounded_witness :
    (handle_start_message 6 60 20 oDenied 0 42 none none none "bad" dbA psA).outcome
        = .invalidLink ∧
    (handle_start_message 6 60 20 oDenied 0 42 none none none "bad" dbA psA).db.files
        = dbA.files ∧
    (handle_start_message 6 60 20 oDenied 0 42 none none none "bad" dbA psA).db.deliveries
        = dbA.deliveries ∧
    (handle_start_message 6 60 20 oDenied 0 42 none none none "bad" dbA psA).db.settings
        = dbA.settings ∧
    (handle_start_message 6 60 20 oDenied 0 42 none none none "bad" dbA psA).db.next_delivery_id
        = dbA.next_delivery_id ∧
    (handle_start_message 6 60 20 oDenied 0 42 none none none "bad" dbA psA).db.users
        = upsert_user 0 42 none none none dbA.users ∧
    (handle_start_message 6 60 20 oDenied 0 42 none none none "bad" dbA psA).ps.scheduled
        = psA.scheduled ∧
    (handle_start_message 6 60 20 oDenied 0 42 none none none "bad" dbA psA).ps.rate_map
        = (is_rate_limited 6 60 0 42 psA.rate_map).2 ∧
    (handle_start_message 6 60 20 oDenied 0 42 none none none "bad" dbA psA).forward_attempted
        = false :=
  invalid_token_side_effects_bounded 6 60 20 oDenied 0 42 none none none "bad" dbA psA
    (by decide) (by decide)

/-- Claim C9 (counterexample): stale identities are NOT evicted.  Identity 1
calls at time 0; identity 2 calls at time 1000 with period 60; identity 1 is
still a key of the map afterwards, with its only timestamp 0 strictly older
than 1000 - 60. -/
theorem stale_identity_persists :
    hasKey (is_rate_limited 6 60 1000 2 (is_rate_limited 6 60 0 1 []).2).2 1 = true ∧
    lookupRate (is_rate_limited 6 60 1000 2 (is_rate_limited 6 60 0 1 []).2).2 1 = [0] ∧
    ((0:Int) < 1000 - 60) := by
  decide

/-- Claim C9 (amended): the rate map never evicts identities: a call by one
identity leaves every other identity's key and timestamp list exactly as
they were, however stale; only an identity's own next call prunes its
timestamps. -/
theorem rate_map_other_identities_untouched (count : Nat) (period now : Int)
    (uid uid2 : Nat) (m : List (Nat × List Int)) (h : uid ≠ uid2) :
    lookupRate (is_rate_limited count period now uid2 m).2 uid = lookupRate m uid ∧
    hasKey (is_rate_limited count period now uid2 m).2 uid = hasKey m uid := by
  refine ⟨?_, ?_⟩
  · simp only [is_rate_limited]
    exact lookupRate_setRate_other _ _ _ _ h
  · simp only [is_rate_limited]
    exact hasKey_setRate_other _ _ _ _ h

theorem rate_map_other_identities_untouched_witness :
    lookupRate (is_rate_limited 6 60 1000 2 [(1, [0])]).2 1 = lookupRate [(1, [0])] 1 ∧
    hasKey (is_rate_limited 6 60 1000 2 [(1, [0])]).2 1 = hasKey [(1, [0])] 1 :=
  rate_map_other_identities_untouched 6 60 1000 1 2 [(1, [0])] (by decide)

/-- Claim C10: when the unguarded warning send_message raises after a
successful forward, the handler aborts there: no delivery row is created,
views is not incremented, and no deletion task is scheduled — the forwarded
copy (forward was reached and succeeded) is left with no auto-delete and no
ledger trace. -/
theorem warning_failure_aborts_flow (count : Nat) (period : Int) (dt : Nat)
    (o : Oracles) (now : Int) (uid : Nat) (un fn ln : Option String)
    (token : String) (db : DBState) (ps : ProcState) (row : FileRecord) (fwd_id : Nat)
    (hrl : (is_rate_limited count period now uid ps.rate_map).1 = false)
    (hrow : get_file_by_token db.files token = some row)
    (hgate : checkChannels o.member_status row.required_channels = none)
    (hfwd : o.forward_result = .ok fwd_id)
    (hwarn : o.warning_result = .error ()) :
    (handle_start_message count period dt o now uid un fn ln token db ps).outcome
        = .warningRaised ∧
    (handle_start_message count period dt o now uid un fn ln token db ps).db.deliveries
        = db.deliveries ∧
    (handle_start_message count period dt o now uid un fn ln token db ps).db.files
        = db.files ∧
    (handle_start_message count period dt o now uid un fn ln token db ps).ps.scheduled
        = ps.scheduled ∧
    (handle_start_message count period dt o now uid un fn ln token db ps).forward_attempted
        = true := by
  unfold handle_start_message
  simp [hrl, hrow, hgate, hfwd, hwarn]

theorem warning_failure_aborts_flow_witness :
    (handle_start_message 6 60 20 oWarnFail 0 42 none none none "tok" dbA psA).outcome
        = .warningRaised ∧
    (handle_start_message 6 60 20 oWarnFail 0 42 none none none "tok" dbA psA).db.deliveries
        = dbA.deliveries ∧
    (handle_start_message 6 60 20 oWarnFail 0 42 none none none "tok" dbA psA).db.files
        = dbA.files ∧
    (handle_start_message 6 60 20 oWarnFail 0 42 none none none "tok" dbA psA).ps.scheduled
        = psA.scheduled ∧
    (handle_start_message 6 60 20 oWarnFail 0 42 none none none "tok" dbA psA).forward_attempted
        = true :=
  warning_failure_aborts_flow 6 60 20 oWarnFail 0 42 none none none "tok" dbA psA fileA 77
    (by decide) (by decide) (by decide) rfl rfl

end TelegramUploader
